import Mathlib

/-!
Verification of the whatsapp-server repository core logic.

Shallow embedding of:
- the bulk campaign orchestrator (`src/helpers/bulkHandler.js`),
- the message dedup tracker (tracker module, embedded from the source file
  holding `isDuplicateMessage` / `generateMessageKey`),
- the connection lifecycle manager (`src/unnamed/part_002`),
- the per-session outbound queue (`src/unnamed/part_003`).

JavaScript objects become Lean structures, `Date.now()` timestamps become
explicit `Nat` parameters, the process-wide `Map`s become association
lists, and background interleavings become explicit operation sequences.
-/

namespace WhatsappServer

/-! ## Campaign orchestrator (src/helpers/bulkHandler.js) -/

/-- Campaign lifecycle status strings used by `bulkHandler.js`
(`'processing' | 'completed' | 'failed' | 'cancelled'`). -/
inductive CampaignStatus
  | processing
  | completed
  | failed
  | cancelled
deriving DecidableEq, Repr

/-- Per-recipient status strings (`'pending' | 'success' | 'failed'`). -/
inductive RecipientStatus
  | pending
  | success
  | failed
deriving DecidableEq, Repr

/-- One entry of `campaign.recipients` as built in `sendBulkMessage`
(bulkHandler.js lines 56-61): `{ number, status, sentAt, error }`. -/
structure RecipientEntry where
  number : String
  status : RecipientStatus
  sentAt : Option Nat
  error : Option String
deriving DecidableEq, Repr

/-- The campaign record of `sendBulkMessage` / `sendPersonalizedBulkMessage`
(bulkHandler.js lines 45-62 and 325-343; the personalized variant adds a
`variables` map per recipient, which does not affect the tracked counts). -/
structure Campaign where
  id : String
  sessionId : String
  totalRecipients : Nat
  processedCount : Nat
  successCount : Nat
  failedCount : Nat
  startTime : Nat
  endTime : Option Nat
  status : CampaignStatus
  recipients : List RecipientEntry
deriving DecidableEq, Repr

/-- The freshly created campaign object (bulkHandler.js lines 45-62):
all counts zero, status `'processing'`, one `pending` entry per recipient. -/
def initialCampaign (cid sid : String) (recipients : List String) (now : Nat) : Campaign :=
  { id := cid
    sessionId := sid
    totalRecipients := recipients.length
    processedCount := 0
    successCount := 0
    failedCount := 0
    startTime := now
    endTime := none
    status := .processing
    recipients := recipients.map fun r =>
      { number := r, status := .pending, sentAt := none, error := none } }

/-- Replace the fields that `updateProgress` mutates on `campaign.recipients[index]`
(bulkHandler.js lines 78-80), keeping the rest of the entry. -/
def setRecipientEntry (l : List RecipientEntry) (i : Nat) (st : RecipientStatus)
    (now : Nat) (err : Option String) : List RecipientEntry :=
  match l, i with
  | [], _ => []
  | e :: rest, 0 => { e with status := st, sentAt := some now, error := err } :: rest
  | e :: rest, j + 1 => e :: setRecipientEntry rest j st now err

/-- The `updateProgress(index, status, error)` closure of both bulk loops
(bulkHandler.js lines 69-95 and 350-376): increment `processedCount`, then
`successCount` when the attempt succeeded else `failedCount`, and mark the
recipient entry. `ok = true` models `status === 'success'`. -/
def updateProgress (c : Campaign) (i : Nat) (ok : Bool) (now : Nat)
    (err : Option String) : Campaign :=
  { c with
    processedCount := c.processedCount + 1
    successCount := if ok then c.successCount + 1 else c.successCount
    failedCount := if ok then c.failedCount else c.failedCount + 1
    recipients :=
      setRecipientEntry c.recipients i (if ok then .success else .failed) now err }

/-- One per-recipient attempt of the `processRecipients` loop
(bulkHandler.js lines 98-185): the try branch calls `updateProgress(i, 'success')`,
the catch branch `updateProgress(i, 'failed', error.message)`. An outcome of
`none` is a successful send; `some msg` is a failure with error text `msg`. -/
def attemptOutcome (c : Campaign) (i : Nat) (outcome : Option String) (now : Nat) : Campaign :=
  match outcome with
  | none => updateProgress c i true now none
  | some msg => updateProgress c i false now (some msg)

/-- Run the per-recipient loop from index `i` over the given outcome list,
one `updateProgress` call per iteration (bulkHandler.js lines 98-185). -/
def applyOutcomes (c : Campaign) (i : Nat) (now : Nat) : List (Option String) → Campaign
  | [] => c
  | o :: rest => applyOutcomes (attemptOutcome c i o now) (i + 1) now rest

/-- The epilogue of `processRecipients` (bulkHandler.js lines 187-190):
`campaign.status = 'completed'; campaign.endTime = Date.now()`. -/
def completeCampaign (c : Campaign) (now : Nat) : Campaign :=
  { c with status := .completed, endTime := some now }

/-- Campaign state after the first `k` recipient attempts of a bulk run —
exactly the states persisted by `saveCampaign` during processing. -/
def campaignAt (cid sid : String) (recipients : List String)
    (outcomes : List (Option String)) (k : Nat) (now : Nat) : Campaign :=
  applyOutcomes (initialCampaign cid sid recipients now) 0 now (outcomes.take k)

/-- A whole bulk run (`processRecipients` driven to the end): every recipient
attempted once, then the campaign marked completed. -/
def runBulkCampaign (cid sid : String) (recipients : List String)
    (outcomes : List (Option String)) (now : Nat) : Campaign :=
  completeCampaign (applyOutcomes (initialCampaign cid sid recipients now) 0 now outcomes) now

/-! ### Persisted campaign vs the running loop (C2)

`saveCampaign` (bulkHandler.js lines 228-231) rewrites the whole campaign
file from the object it is handed. The background loop keeps its own
in-memory `campaign` object and calls `saveCampaign(campaign)` after every
`updateProgress` and at completion; `cancelCampaign` (lines 515-532)
re-reads the file via `getCampaign`, mutates that copy and saves it. The
pair `(mem, disk)` models the loop's object and the file contents. -/

/-- State shared between one running bulk loop and the campaign file. -/
structure CampaignStore where
  mem : Campaign
  disk : Campaign
deriving DecidableEq, Repr

/-- Operations that touch one campaign after it was started: a loop
iteration (`updateProgress` then `saveCampaign`, bulkHandler.js lines 69-95),
the loop epilogue (lines 187-190), and `cancelCampaign` (lines 515-532). -/
inductive CampaignOp
  | loopStep (i : Nat) (outcome : Option String) (now : Nat)
  | finishLoop (now : Nat)
  | cancel (now : Nat)
deriving DecidableEq, Repr

/-- Executing one operation; the `Bool` is the return value of
`cancelCampaign` for `cancel` ops (and `true` for loop operations, which
return nothing). `cancel` reads the *file* copy, succeeds only while that
copy's status is `'processing'`, and never touches the loop's object;
loop operations overwrite the file with the loop's object. -/
def execCampaignOp (st : CampaignStore) : CampaignOp → CampaignStore × Bool
  | .loopStep i outcome now =>
    let m := attemptOutcome st.mem i outcome now
    ({ mem := m, disk := m }, true)
  | .finishLoop now =>
    let m := completeCampaign st.mem now
    ({ mem := m, disk := m }, true)
  | .cancel now =>
    if st.disk.status = .processing then
      ({ st with disk := { st.disk with status := .cancelled, endTime := some now } }, true)
    else
      (st, false)

/-- Run a sequence of campaign operations from an initial store. -/
def execCampaignOps (st : CampaignStore) : List CampaignOp → CampaignStore
  | [] => st
  | op :: rest => execCampaignOps (execCampaignOp st op).1 rest

/-- Store at the moment a bulk send is initiated: the fresh campaign is
both the loop's object and the persisted file (bulkHandler.js line 65). -/
def initialCampaignStore (cid sid : String) (recipients : List String) (now : Nat) :
    CampaignStore :=
  { mem := initialCampaign cid sid recipients now
    disk := initialCampaign cid sid recipients now }

/-! ## Connection lifecycle manager (src/unnamed/part_002) -/

/-- Connection state strings `'connecting' | 'open' | 'closed'` stored in
`connections[sessionId].state`; `opened` stands for the string `'open'`
(a Lean keyword). -/
inductive ConnState
  | connecting
  | opened
  | closed
deriving DecidableEq, Repr

/-- One value of the process-wide `connections` object
(part_002 lines 139-143): `{ socket, qr, state }`. The live socket handle
is modeled as an opaque numeric id. -/
structure ConnectionEntry where
  socket : Nat
  qr : Option String
  state : ConnState
deriving DecidableEq, Repr

/-- The object `getConnection` returns (part_002 lines 173-177):
`{ socket, qr, status }`. -/
structure ConnectionInfo where
  socket : Nat
  qr : Option String
  status : ConnState
deriving DecidableEq, Repr

/-- Lookup `connections[sessionId]` on the association-list model of the
`connections` object. -/
def lookupConnection : List (String × ConnectionEntry) → String → Option ConnectionEntry
  | [], _ => none
  | (k, v) :: rest, sid => if k = sid then some v else lookupConnection rest sid

/-- The `getConnection` function (part_002 lines 168-178): `null` when the
session id is absent from `connections`; otherwise the stored socket, qr and
state are returned as `{ socket, qr, status }` — with no check of the state. -/
def getConnection (conns : List (String × ConnectionEntry)) (sid : String) :
    Option ConnectionInfo :=
  match lookupConnection conns sid with
  | none => none
  | some c => some { socket := c.socket, qr := c.qr, status := c.state }

/-- The constant `MAX_RECONNECTION_ATTEMPTS` (part_002 line 18). -/
def MAX_RECONNECTION_ATTEMPTS : Nat := 5

/-- Per-session slice of the lifecycle manager's mutable state: whether
`connections[sessionId]` exists and its state, the `reconnectionAttempts`
Map entry (a missing entry is `none`), and whether the on-disk session
directory exists. -/
structure SessionLifecycle where
  hasConnection : Bool
  connState : ConnState
  attempts : Option Nat
  hasSessionDir : Bool
deriving DecidableEq, Repr

/-- Observable effect of the `connection === 'close'` handler: either a
reconnect was scheduled via `setTimeout(..., delay)` or the session was
torn down. -/
inductive CloseOutcome
  | reconnectScheduled (delayMs : Nat)
  | terminated
deriving DecidableEq, Repr

/-- The `connection === 'close'` branch of the `connection.update` handler
(part_002 lines 72-120). `shouldReconnect` models the Boom /
`DisconnectReason.loggedOut` classification computed on line 73-74. The
handler marks the entry `'closed'`, then on a recoverable close increments
the `reconnectionAttempts` Map entry (absent counts as zero) and either
schedules a reconnect after `min(1000 * 2^(attempts-1), 30000)` ms when the
new count is at most `MAX_RECONNECTION_ATTEMPTS`, or removes the session
directory, the `connections` entry and the attempts entry. A terminal close
(logged out) tears the session down immediately. -/
def onConnectionClose (st : SessionLifecycle) (shouldReconnect : Bool) :
    SessionLifecycle × CloseOutcome :=
  let st1 := if st.hasConnection then { st with connState := .closed } else st
  if shouldReconnect then
    let n := match st1.attempts with
      | none => 1
      | some a => a + 1
    if n ≤ MAX_RECONNECTION_ATTEMPTS then
      ({ st1 with attempts := some n },
        .reconnectScheduled (min (1000 * 2 ^ (n - 1)) 30000))
    else
      ({ st1 with attempts := none, hasConnection := false, hasSessionDir := false },
        .terminated)
  else
    ({ st1 with attempts := none, hasConnection := false, hasSessionDir := false },
      .terminated)

/-- The `connection === 'open'` branch (part_002 lines 121-132): delete the
`reconnectionAttempts` entry and mark the connection `'open'` (qr cleared,
not tracked here). -/
def onConnectionOpen (st : SessionLifecycle) : SessionLifecycle :=
  { st with
    attempts := none
    connState := if st.hasConnection then .opened else st.connState }

/-- Effective reconnect counter: a missing `reconnectionAttempts` Map entry
behaves as zero (the next close sets it to 1, part_002 lines 86-90). -/
def attemptsVal (st : SessionLifecycle) : Nat := st.attempts.getD 0

/-- State touched by `disconnectSession` (part_002 lines 185-237): the
`connections` object and the set of on-disk `sessions/<id>` directories. -/
structure ManagerState where
  connections : List (String × ConnectionEntry)
  sessionDirs : List String
deriving DecidableEq, Repr

/-- Model of `delete connections[sessionId]`. -/
def removeConnection : List (String × ConnectionEntry) → String → List (String × ConnectionEntry)
  | [], _ => []
  | (k, v) :: rest, sid => if k = sid then rest else (k, v) :: removeConnection rest sid

/-- Model of `fs.rmSync(sessionDir, ...)`. -/
def removeDir (dirs : List String) (sid : String) : List String :=
  dirs.filter fun d => decide (d ≠ sid)

/-- Model of `fs.existsSync(sessionDir)`. -/
def dirExists (dirs : List String) (sid : String) : Bool :=
  dirs.contains sid

/-- The `disconnectSession` function (part_002 lines 185-237). When the
session is unknown in `connections` it still removes the session directory
if present and returns `true`, else `false`. For a known session the
`socket.logout()` / `socket.end()` calls are best-effort network calls with
no effect on the modeled state; the directory and the `connections` entry
are then removed and the call returns `true`. -/
def disconnectSession (st : ManagerState) (sid : String) : Bool × ManagerState :=
  match lookupConnection st.connections sid with
  | none =>
    if dirExists st.sessionDirs sid then
      (true, { st with sessionDirs := removeDir st.sessionDirs sid })
    else
      (false, st)
  | some _ =>
    (true,
      { connections := removeConnection st.connections sid
        sessionDirs := removeDir st.sessionDirs sid })

/-! ## Message dedup tracker (tracker module, `isDuplicateMessage`)

The tracker keeps a process-wide `recentMessages` Map from a composite
message key to the last-sent timestamp. Strings are modeled as `List Char`
so the fingerprint truncation is explicit; the Map becomes an association
list in insertion order, `Date.now()` an explicit `now` parameter, and the
`Math.random() < 0.1` probabilistic sweep an explicit `doSweep` flag. -/

/-- The constant `MESSAGE_TRACKING_TTL` (5 minutes in milliseconds). -/
def MESSAGE_TRACKING_TTL : Nat := 5 * 60 * 1000

/-- The `recentMessages` Map: composite key to last-sent timestamp. -/
abbrev TrackerStore := List (List Char × Nat)

/-- Map lookup `recentMessages.get(key)` (first — and only — entry with
that key, since `Map` keys are unique). -/
def trackerGet : TrackerStore → List Char → Option Nat
  | [], _ => none
  | (k, t) :: rest, key => if k = key then some t else trackerGet rest key

/-- Map update `recentMessages.set(key, now)`: overwrite an existing entry
in place, else append. -/
def trackerSet : TrackerStore → List Char → Nat → TrackerStore
  | [], key, now => [(key, now)]
  | (k, t) :: rest, key, now =>
    if k = key then (key, now) :: rest else (k, t) :: trackerSet rest key now

/-- The cleanup loop inside `isDuplicateMessage`: delete every entry with
`now - timestamp > MESSAGE_TRACKING_TTL`, i.e. keep those with
`now - timestamp ≤ MESSAGE_TRACKING_TTL`. -/
def sweepTracker (m : TrackerStore) (now : Nat) : TrackerStore :=
  m.filter fun e => decide (now - e.2 ≤ MESSAGE_TRACKING_TTL)

/-- The `generateMessageKey` function for string content: content longer
than 100 chars is fingerprinted as its first 50 chars, `"..."` and its
length; the key is `sessionId:recipient:type:contentIdentifier`. -/
def generateMessageKey (sessionId recipient mtype content : List Char) : List Char :=
  let contentIdentifier :=
    if 100 < content.length then
      content.take 50 ++ "...".data ++ (Nat.repr content.length).data
    else content
  sessionId ++ ":".data ++ recipient ++ ":".data ++ mtype ++ ":".data ++ contentIdentifier

/-- Body of `isDuplicateMessage` after the key has been computed: optional
sweep, then return `true` without touching the Map when the key is present
and fresh (`now - timestamp < TTL`), otherwise record `now` under the key
and return `false`. -/
def checkDuplicate (m : TrackerStore) (messageKey : List Char) (now : Nat)
    (doSweep : Bool) : Bool × TrackerStore :=
  let m1 := if doSweep then sweepTracker m now else m
  match trackerGet m1 messageKey with
  | some timestamp =>
    if now - timestamp < MESSAGE_TRACKING_TTL then (true, m1)
    else (false, trackerSet m1 messageKey now)
  | none => (false, trackerSet m1 messageKey now)

/-- The `isDuplicateMessage` function: compute the composite key, then
check-and-set against the tracker store. -/
def isDuplicateMessage (m : TrackerStore) (sessionId recipient mtype content : List Char)
    (now : Nat) (doSweep : Bool) : Bool × TrackerStore :=
  checkDuplicate m (generateMessageKey sessionId recipient mtype content) now doSweep

/-- The `recordMessage` function: unconditional `set` of the key to now. -/
def recordMessage (m : TrackerStore) (sessionId recipient mtype content : List Char)
    (now : Nat) : TrackerStore :=
  trackerSet m (generateMessageKey sessionId recipient mtype content) now

/-! ## Outbound queue engine (src/unnamed/part_003)

The queue file `{items, processing, lastProcessed, stats}` becomes
`QueueData`; the kind-specific payload of a queue item does not affect
queue mechanics and is kept abstract as a content string, while the
`options.retry` counter is tracked explicitly (an absent `retry` option
behaves as zero: no requeue). The outcome of the dispatched send is an
input `ok : Bool`, since it is decided by the transport. -/

/-- Queue item message types handled by `processNextInQueue`
(part_003 lines 142-206). -/
inductive QueueMsgType
  | text
  | image
  | document
  | audio
  | location
  | groupMessage
deriving DecidableEq, Repr

/-- One queued message: type, recipient, abstract content, the
`options.retry` counter and the enqueue timestamp set by `addToQueue`. -/
structure QueueMessage where
  mtype : QueueMsgType
  recipient : String
  content : String
  retry : Nat
  timestamp : Option Nat
deriving DecidableEq, Repr

/-- The `stats` object of a queue file. -/
structure QueueStats where
  total : Nat
  success : Nat
  failed : Nat
deriving DecidableEq, Repr

/-- The queue file contents (part_003 lines 25-34). -/
structure QueueData where
  items : List QueueMessage
  lastProcessed : Option Nat
  stats : QueueStats
deriving DecidableEq, Repr

/-- The fresh queue created by `initQueue` (part_003 lines 25-34). -/
def initQueue : QueueData :=
  { items := [], lastProcessed := none, stats := { total := 0, success := 0, failed := 0 } }

/-- The `addToQueue` function (part_003 lines 86-113): stamp the message if
unstamped, append it, bump `stats.total`, persist, and report the new queue
length (the processor kick-off is modeled separately by `processorTick`). -/
def addToQueue (q : QueueData) (message : QueueMessage) (now : Nat) : QueueData × Nat :=
  let message := if message.timestamp = none
    then { message with timestamp := some now } else message
  let q := { q with
    items := q.items ++ [message]
    stats := { q.stats with total := q.stats.total + 1 } }
  (q, q.items.length)

/-- The `processNextInQueue` function (part_003 lines 121-234): return
`false` untouched on an empty queue; otherwise shift the head, dispatch it
(outcome `ok` supplied by the transport), and on success bump
`stats.success`, on failure bump `stats.failed` and re-append the item at
the tail with a decremented retry counter when retries remain. The middle
component is the dispatched item. -/
def processNextInQueue (q : QueueData) (ok : Bool) (now : Nat) :
    QueueData × Option QueueMessage × Bool :=
  match q.items with
  | [] => (q, none, false)
  | message :: rest =>
    if ok then
      ({ q with
          items := rest
          stats := { q.stats with success := q.stats.success + 1 }
          lastProcessed := some now },
        some message, true)
    else
      ({ q with
          items :=
            if 0 < message.retry then
              rest ++ [{ message with retry := message.retry - 1 }]
            else rest
          stats := { q.stats with failed := q.stats.failed + 1 }
          lastProcessed := some now },
        some message, false)

/-- Dispatch order of a run of `processNextInQueue` cycles, one per entry of
`oks`; the run ends early when the queue is empty (the processor stops). -/
def processRun (now : Nat) : QueueData → List Bool → List QueueMessage × QueueData
  | q, [] => ([], q)
  | q, ok :: oks =>
    match q.items with
    | [] => ([], q)
    | _ :: _ =>
      let s := processNextInQueue q ok now
      let r := processRun now s.1 oks
      ((s.2.1.toList ++ r.1), r.2)

/-- One tick of the `setInterval` body of `startQueueProcessor`
(part_003 lines 254-279): when the session has no connection or its status
is not `'open'`, the processor stops itself at once; otherwise one message
is processed and the processor stops only if nothing was processed and the
queue is empty. The second component is whether the processor is still
running after the tick. -/
def processorTick (conn : Option ConnectionInfo) (q : QueueData) (ok : Bool) (now : Nat) :
    QueueData × Bool :=
  match conn with
  | none => (q, false)
  | some c =>
    if c.status ≠ .opened then (q, false)
    else
      let s := processNextInQueue q ok now
      if s.2.2 then (s.1, true)
      else if s.1.items.length = 0 then (s.1, false)
      else (s.1, true)

/-- The `clearQueue` function (part_003 lines 330-352): drop all pending
items, report how many were removed; the stats and `lastProcessed` fields
of the queue file are written back unchanged (stopping the processor only
touches the separate `queueStatus`/`processors` registries). -/
def clearQueue (q : QueueData) : QueueData × Nat :=
  ({ q with items := [] }, q.items.length)

/-! ## Personalized placeholder substitution (bulkHandler.js lines 390-421)

The string branch of `personalizeContent` runs
`personalizedContent.split(placeholder).join(value)` for every
`[key, value]` entry of the recipient's variable map, where
`placeholder` is the key wrapped in double braces. Strings are `List Char`;
`split(pat).join(v)` is the classic left-to-right, non-overlapping
replacement of every occurrence of the (always nonempty) pattern. -/

/-- Boolean test that `pat` is a leading segment of `s`. -/
def leadsWith : List Char → List Char → Bool
  | [], _ => true
  | _ :: _, [] => false
  | p :: ps, c :: cs => if p = c then leadsWith ps cs else false

/-- Boolean test that `pat` occurs as a contiguous segment of `s`. -/
def hasSegment (pat : List Char) : List Char → Bool
  | [] => leadsWith pat []
  | c :: rest => leadsWith pat (c :: rest) || hasSegment pat rest

/-- Scanner for `split(pat).join(v)`: while `skip` is positive the scanner
is inside an already-matched occurrence and just consumes characters;
at `skip = 0` a match of `pat` emits `v` and skips the matched occurrence,
anything else is copied verbatim. -/
def replaceAllAux (pat v : List Char) : Nat → List Char → List Char
  | _, [] => []
  | skip + 1, _ :: rest => replaceAllAux pat v skip rest
  | 0, c :: rest =>
    if pat ≠ [] ∧ leadsWith pat (c :: rest) = true then
      v ++ replaceAllAux pat v (pat.length - 1) rest
    else
      c :: replaceAllAux pat v 0 rest

/-- `s.split(pat).join(v)` for the nonempty patterns produced by
`personalizeContent` (a placeholder always has at least the four braces). -/
def replaceAll (pat v s : List Char) : List Char :=
  replaceAllAux pat v 0 s

/-- The template placeholder `\x7b\x7bkey\x7d\x7d` built on bulkHandler.js
line 397. -/
def placeholder (key : List Char) : List Char :=
  "\x7b\x7b".data ++ key ++ "\x7d\x7d".data

/-- The string branch of `personalizeContent` (bulkHandler.js lines
390-402): fold the split/join replacement over the recipient's variable
entries in insertion order. -/
def personalizeContent (content : List Char)
    (vars : List (List Char × List Char)) : List Char :=
  vars.foldl (fun acc kv => replaceAll (placeholder kv.1) kv.2 acc) content

end WhatsappServer

namespace WhatsappServer

theorem applyOutcomes_processedCount (now : Nat) :
    ∀ (l : List (Option String)) (c : Campaign) (i : Nat),
      (applyOutcomes c i now l).processedCount = c.processedCount + l.length := by
  intro l
  induction l with
  | nil => intro c i; simp [applyOutcomes]
  | cons o rest ih =>
    intro c i
    simp only [applyOutcomes, ih]
    cases o <;> simp [attemptOutcome, updateProgress] <;> omega

theorem applyOutcomes_success_add_failed (now : Nat) :
    ∀ (l : List (Option String)) (c : Campaign) (i : Nat),
      (applyOutcomes c i now l).successCount + (applyOutcomes c i now l).failedCount
        = c.successCount + c.failedCount + l.length := by
  intro l
  induction l with
  | nil => intro c i; simp [applyOutcomes]
  | cons o rest ih =>
    intro c i
    simp only [applyOutcomes, ih]
    cases o <;> simp [attemptOutcome, updateProgress] <;> omega

theorem applyOutcomes_totalRecipients (now : Nat) :
    ∀ (l : List (Option String)) (c : Campaign) (i : Nat),
      (applyOutcomes c i now l).totalRecipients = c.totalRecipients := by
  intro l
  induction l with
  | nil => intro c i; simp [applyOutcomes]
  | cons o rest ih =>
    intro c i
    simp only [applyOutcomes, ih]
    cases o <;> simp [attemptOutcome, updateProgress]

/-- C1: for every bulk campaign (plain or personalized), at every persisted
point during processing `processedCount = successCount + failedCount` and
`processedCount ≤ totalRecipients`; and the completed state has
`processedCount = totalRecipients`. -/
theorem bulkCampaign_progress_invariant
    (cid sid : String) (recipients : List String)
    (outcomes : List (Option String)) (k now : Nat)
    (hlen : outcomes.length = recipients.length) :
    ((campaignAt cid sid recipients outcomes k now).processedCount
        = (campaignAt cid sid recipients outcomes k now).successCount
          + (campaignAt cid sid recipients outcomes k now).failedCount
      ∧ (campaignAt cid sid recipients outcomes k now).processedCount
        ≤ (campaignAt cid sid recipients outcomes k now).totalRecipients)
    ∧ ((runBulkCampaign cid sid recipients outcomes now).status = .completed
      ∧ (runBulkCampaign cid sid recipients outcomes now).processedCount
        = (runBulkCampaign cid sid recipients outcomes now).totalRecipients) := by
  constructor
  · constructor
    · simp [campaignAt, applyOutcomes_processedCount, applyOutcomes_success_add_failed,
        initialCampaign]
    · simp only [campaignAt, applyOutcomes_processedCount, applyOutcomes_totalRecipients,
        initialCampaign]
      have h := List.length_take_le k outcomes
      simp only [List.length_take]
      omega
  · constructor
    · simp [runBulkCampaign, completeCampaign]
    · simp [runBulkCampaign, completeCampaign, applyOutcomes_processedCount,
        applyOutcomes_totalRecipients, initialCampaign, hlen]

/-- Witness for C1 at a concrete two-recipient campaign with one success and
one failure, inspected after the first attempt. -/
theorem bulkCampaign_progress_invariant_witness :
    (["621".length, 2].length = 2) ∧
    (((campaignAt "c1" "s1" ["621", "622"] [none, some "err"] 1 0).processedCount
        = (campaignAt "c1" "s1" ["621", "622"] [none, some "err"] 1 0).successCount
          + (campaignAt "c1" "s1" ["621", "622"] [none, some "err"] 1 0).failedCount
      ∧ (campaignAt "c1" "s1" ["621", "622"] [none, some "err"] 1 0).processedCount
        ≤ (campaignAt "c1" "s1" ["621", "622"] [none, some "err"] 1 0).totalRecipients)
    ∧ ((runBulkCampaign "c1" "s1" ["621", "622"] [none, some "err"] 0).status = .completed
      ∧ (runBulkCampaign "c1" "s1" ["621", "622"] [none, some "err"] 0).processedCount
        = (runBulkCampaign "c1" "s1" ["621", "622"] [none, some "err"] 0).totalRecipients)) :=
  ⟨by decide, bulkCampaign_progress_invariant "c1" "s1" ["621", "622"]
    [none, some "err"] 1 0 (by decide)⟩

/-- C2 counterexample: a successful `cancelCampaign` marks the persisted
campaign `'cancelled'`, yet the very next loop iteration overwrites the file
from the loop's in-memory object — the persisted status reverts to
`'processing'` and the persisted counts change. Concrete trace: two
recipients, one loop step, then cancel, then the second loop step. -/
theorem cancelCampaign_immutability_counterexample :
    ((execCampaignOp
        (execCampaignOp (initialCampaignStore "c1" "s1" ["621", "622"] 0)
          (.loopStep 0 none 1)).1
        (.cancel 2)).2 = true)
    ∧ ((execCampaignOp
        (execCampaignOp (initialCampaignStore "c1" "s1" ["621", "622"] 0)
          (.loopStep 0 none 1)).1
        (.cancel 2)).1.disk.status = .cancelled)
    ∧ ((execCampaignOp
        (execCampaignOp
          (execCampaignOp (initialCampaignStore "c1" "s1" ["621", "622"] 0)
            (.loopStep 0 none 1)).1
          (.cancel 2)).1
        (.loopStep 1 none 3)).1.disk.status = .processing)
    ∧ ((execCampaignOp
        (execCampaignOp
          (execCampaignOp (initialCampaignStore "c1" "s1" ["621", "622"] 0)
            (.loopStep 0 none 1)).1
          (.cancel 2)).1
        (.loopStep 1 none 3)).1.disk.processedCount = 2) := by
  decide

/-- C2 amended: `cancelCampaign` succeeds exactly while the persisted status
is `'processing'` and then marks the persisted record cancelled without
touching the loop's in-memory object; but any later loop iteration replaces
the whole persisted record with the loop's object (whose status is still
`'processing'`), so the cancelled mark survives only if the background loop
performs no further step. -/
theorem cancelCampaign_overwrite_amended (st : CampaignStore) (now : Nat) :
    (st.disk.status ≠ .processing → execCampaignOp st (.cancel now) = (st, false))
    ∧ (st.disk.status = .processing →
        (execCampaignOp st (.cancel now)).2 = true
        ∧ (execCampaignOp st (.cancel now)).1.disk.status = .cancelled
        ∧ (execCampaignOp st (.cancel now)).1.mem = st.mem)
    ∧ (∀ (i : Nat) (outcome : Option String) (t : Nat),
        (execCampaignOp st (.loopStep i outcome t)).1.disk
          = attemptOutcome st.mem i outcome t) := by
  refine ⟨fun h => ?_, fun h => ?_, fun i outcome t => ?_⟩
  · simp [execCampaignOp, h]
  · simp [execCampaignOp, h]
  · simp [execCampaignOp]

/-- Witness for the amended C2 at a concrete freshly started campaign. -/
theorem cancelCampaign_overwrite_amended_witness :
    ((initialCampaignStore "c1" "s1" ["621"] 0).disk.status = .processing)
    ∧ ((execCampaignOp (initialCampaignStore "c1" "s1" ["621"] 0) (.cancel 2)).2 = true
      ∧ (execCampaignOp (initialCampaignStore "c1" "s1" ["621"] 0)
          (.cancel 2)).1.disk.status = .cancelled
      ∧ (execCampaignOp (initialCampaignStore "c1" "s1" ["621"] 0) (.cancel 2)).1.mem
          = (initialCampaignStore "c1" "s1" ["621"] 0).mem) :=
  ⟨by decide,
    (cancelCampaign_overwrite_amended (initialCampaignStore "c1" "s1" ["621"] 0) 2).2.1
      (by decide)⟩

/-- C3: on a recoverable close the attempt counter is incremented; while the
new count is at most 5 a reconnect is scheduled after
`min(1000 * 2^(attempts-1), 30000)` ms, otherwise the session is torn down
(session directory removed, connections entry deleted); a successful open
resets the counter to zero. -/
theorem reconnect_backoff_policy (st : SessionLifecycle) :
    (attemptsVal st + 1 ≤ 5 →
      (onConnectionClose st true).2
          = .reconnectScheduled (min (1000 * 2 ^ (attemptsVal st + 1 - 1)) 30000)
        ∧ attemptsVal (onConnectionClose st true).1 = attemptsVal st + 1)
    ∧ (5 < attemptsVal st + 1 →
      (onConnectionClose st true).2 = .terminated
        ∧ (onConnectionClose st true).1.hasSessionDir = false
        ∧ (onConnectionClose st true).1.hasConnection = false
        ∧ (onConnectionClose st true).1.attempts = none)
    ∧ attemptsVal (onConnectionOpen st) = 0 := by
  obtain ⟨hc, cs, a, hd⟩ := st
  refine ⟨fun h => ?_, fun h => ?_, ?_⟩
  · cases a with
    | none =>
      cases hc <;> simp [onConnectionClose, attemptsVal, MAX_RECONNECTION_ATTEMPTS]
    | some v =>
      simp only [attemptsVal, Option.getD] at h ⊢
      cases hc <;>
        simp [onConnectionClose, MAX_RECONNECTION_ATTEMPTS, attemptsVal,
          show v + 1 ≤ 5 from h]
  · cases a with
    | none => simp [attemptsVal] at h
    | some v =>
      simp only [attemptsVal, Option.getD] at h
      cases hc <;>
        simp [onConnectionClose, MAX_RECONNECTION_ATTEMPTS,
          show ¬(v + 1 ≤ 5) from by omega]
  · simp [onConnectionOpen, attemptsVal]

/-- Witness for C3: a session on its third recoverable close gets a 4 s
backoff; one on its sixth is torn down; an open resets the counter. -/
theorem reconnect_backoff_policy_witness :
    (attemptsVal ⟨true, .closed, some 2, true⟩ + 1 ≤ 5
      ∧ ((onConnectionClose ⟨true, .closed, some 2, true⟩ true).2
            = .reconnectScheduled
                (min (1000 * 2 ^ (attemptsVal ⟨true, .closed, some 2, true⟩ + 1 - 1)) 30000)
          ∧ attemptsVal (onConnectionClose ⟨true, .closed, some 2, true⟩ true).1
            = attemptsVal ⟨true, .closed, some 2, true⟩ + 1))
    ∧ (5 < attemptsVal ⟨true, .closed, some 5, true⟩ + 1
      ∧ ((onConnectionClose ⟨true, .closed, some 5, true⟩ true).2 = .terminated
        ∧ (onConnectionClose ⟨true, .closed, some 5, true⟩ true).1.hasSessionDir = false
        ∧ (onConnectionClose ⟨true, .closed, some 5, true⟩ true).1.hasConnection = false
        ∧ (onConnectionClose ⟨true, .closed, some 5, true⟩ true).1.attempts = none)) :=
  ⟨⟨by decide, (reconnect_backoff_policy ⟨true, .closed, some 2, true⟩).1 (by decide)⟩,
    ⟨by decide, (reconnect_backoff_policy ⟨true, .closed, some 5, true⟩).2.1 (by decide)⟩⟩

/-- C7 counterexample: for a session whose state is `'connecting'` (not
open), `getConnection` still returns the stored socket handle instead of
signalling absence. -/
theorem getConnection_connecting_counterexample :
    getConnection [("s1", { socket := 7, qr := none, state := .connecting })] "s1"
        = some { socket := 7, qr := none, status := .connecting }
      ∧ ConnState.connecting ≠ ConnState.opened := by
  decide

/-- C7 amended: `getConnection` is a pure, non-blocking map lookup; it
signals absence exactly for sessions unknown to the `connections` map, and
for any known session it returns the stored handle together with the
current status regardless of the state — readiness (`status === 'open'`) is
checked by callers such as the queue processor. -/
theorem getConnection_lookup_amended (conns : List (String × ConnectionEntry)) (sid : String) :
    (lookupConnection conns sid = none → getConnection conns sid = none)
    ∧ (∀ c, lookupConnection conns sid = some c →
        getConnection conns sid = some { socket := c.socket, qr := c.qr, status := c.state }) := by
  refine ⟨fun h => ?_, fun c h => ?_⟩
  · simp [getConnection, h]
  · simp [getConnection, h]

/-- Witness for the amended C7 at a concrete one-session map. -/
theorem getConnection_lookup_amended_witness :
    (lookupConnection [("s1", { socket := 7, qr := none, state := .closed })] "s1"
        = some { socket := 7, qr := none, state := .closed })
    ∧ getConnection [("s1", { socket := 7, qr := none, state := .closed })] "s1"
        = some { socket := 7, qr := none, status := .closed } :=
  ⟨by decide,
    (getConnection_lookup_amended [("s1", { socket := 7, qr := none, state := .closed })]
        "s1").2 { socket := 7, qr := none, state := .closed } (by decide)⟩

/-- C10: `disconnectSession` returns true exactly when the session is known
in memory or its on-disk directory exists; in the unknown-in-memory case
with an existing directory the directory is removed. -/
theorem disconnectSession_result (st : ManagerState) (sid : String) :
    (disconnectSession st sid).1
        = ((lookupConnection st.connections sid).isSome || dirExists st.sessionDirs sid)
    ∧ (lookupConnection st.connections sid = none → dirExists st.sessionDirs sid = true →
        (disconnectSession st sid).2.sessionDirs = removeDir st.sessionDirs sid
          ∧ (disconnectSession st sid).2.connections = st.connections) := by
  refine ⟨?_, fun h hdir => ?_⟩
  · cases hl : lookupConnection st.connections sid with
    | none =>
      cases hd : dirExists st.sessionDirs sid <;> simp [disconnectSession, hl, hd]
    | some c => simp [disconnectSession, hl]
  · simp [disconnectSession, h, hdir]

theorem trackerGet_filter_none (m : TrackerStore) (key : List Char)
    (p : List Char × Nat → Bool) (h : trackerGet m key = none) :
    trackerGet (m.filter p) key = none := by
  induction m with
  | nil => simp [trackerGet]
  | cons e rest ih =>
    obtain ⟨k, t⟩ := e
    by_cases hk : k = key
    · simp [trackerGet, hk] at h
    · simp only [trackerGet, hk, if_false, if_neg, not_false_iff] at h
      cases hp : p (k, t) <;> simp [List.filter, hp, trackerGet, hk, ih h]

theorem trackerGet_none_append (xs ys : TrackerStore) (key : List Char)
    (h : trackerGet xs key = none) :
    trackerGet (xs ++ ys) key = trackerGet ys key := by
  induction xs with
  | nil => simp
  | cons e rest ih =>
    obtain ⟨k, t⟩ := e
    by_cases hk : k = key
    · simp [trackerGet, hk] at h
    · simp only [trackerGet, hk, if_neg, not_false_iff] at h
      simp [List.cons_append, trackerGet, hk, ih h]

theorem trackerGet_snoc_self (xs : TrackerStore) (key : List Char) (t : Nat)
    (hxs : trackerGet xs key = none) :
    trackerGet (xs ++ [(key, t)]) key = some t := by
  rw [trackerGet_none_append _ _ _ hxs]
  simp [trackerGet]

theorem trackerSet_absent (m : TrackerStore) (key : List Char) (t : Nat)
    (h : trackerGet m key = none) :
    trackerSet m key t = m ++ [(key, t)] := by
  induction m with
  | nil => simp [trackerSet]
  | cons e rest ih =>
    obtain ⟨k, u⟩ := e
    by_cases hk : k = key
    · simp [trackerGet, hk] at h
    · simp only [trackerGet, hk, if_neg, not_false_iff] at h
      simp [trackerSet, hk, ih h]

theorem trackerSet_append_replace (xs ys : TrackerStore) (key : List Char) (t0 t : Nat)
    (h : trackerGet xs key = none) :
    trackerSet (xs ++ (key, t0) :: ys) key t = xs ++ (key, t) :: ys := by
  induction xs with
  | nil => simp [trackerSet]
  | cons e rest ih =>
    obtain ⟨k, u⟩ := e
    by_cases hk : k = key
    · simp [trackerGet, hk] at h
    · simp only [trackerGet, hk, if_neg, not_false_iff] at h
      simp [List.cons_append, trackerSet, hk, ih h]

theorem checkDuplicate_absent (m : TrackerStore) (key : List Char) (now : Nat) (w : Bool)
    (h : trackerGet m key = none) :
    ∃ xs, trackerGet xs key = none
      ∧ checkDuplicate m key now w = (false, xs ++ [(key, now)]) := by
  have h1 : trackerGet (if w then sweepTracker m now else m) key = none := by
    cases w
    · simpa using h
    · simpa [sweepTracker] using trackerGet_filter_none m key _ h
  refine ⟨if w then sweepTracker m now else m, h1, ?_⟩
  simp [checkDuplicate, h1, trackerSet_absent _ _ _ h1]

theorem checkDuplicate_fresh (xs : TrackerStore) (key : List Char) (ts now : Nat) (w : Bool)
    (hxs : trackerGet xs key = none) (hfresh : now - ts < MESSAGE_TRACKING_TTL) :
    ∃ xs2, trackerGet xs2 key = none
      ∧ checkDuplicate (xs ++ [(key, ts)]) key now w = (true, xs2 ++ [(key, ts)]) := by
  cases w with
  | false =>
    refine ⟨xs, hxs, ?_⟩
    have hget := trackerGet_snoc_self xs key ts hxs
    simp [checkDuplicate, hget, hfresh]
  | true =>
    have hxs2 : trackerGet (sweepTracker xs now) key = none :=
      trackerGet_filter_none xs key _ hxs
    refine ⟨sweepTracker xs now, hxs2, ?_⟩
    have hsw : sweepTracker (xs ++ [(key, ts)]) now = sweepTracker xs now ++ [(key, ts)] := by
      simp only [sweepTracker, List.filter_append]
      simp
      omega
    have hget := trackerGet_snoc_self (sweepTracker xs now) key ts hxs2
    simp [checkDuplicate, hsw, hget, hfresh]

theorem checkDuplicate_expired (xs : TrackerStore) (key : List Char) (ts now : Nat) (w : Bool)
    (hxs : trackerGet xs key = none) (hexp : MESSAGE_TRACKING_TTL ≤ now - ts) :
    ∃ xs2, trackerGet xs2 key = none
      ∧ checkDuplicate (xs ++ [(key, ts)]) key now w = (false, xs2 ++ [(key, now)]) := by
  have hnl : ¬ (now - ts < MESSAGE_TRACKING_TTL) := by omega
  cases w with
  | false =>
    refine ⟨xs, hxs, ?_⟩
    have hget := trackerGet_snoc_self xs key ts hxs
    have hset : trackerSet (xs ++ [(key, ts)]) key now = xs ++ [(key, now)] := by
      simpa using trackerSet_append_replace xs [] key ts now hxs
    simp [checkDuplicate, hget, hnl, hset]
  | true =>
    have hxs2 : trackerGet (sweepTracker xs now) key = none :=
      trackerGet_filter_none xs key _ hxs
    refine ⟨sweepTracker xs now, hxs2, ?_⟩
    by_cases hkeep : now - ts ≤ MESSAGE_TRACKING_TTL
    · have hsw : sweepTracker (xs ++ [(key, ts)]) now = sweepTracker xs now ++ [(key, ts)] := by
        simp only [sweepTracker, List.filter_append]
        simp
        omega
      have hget := trackerGet_snoc_self (sweepTracker xs now) key ts hxs2
      have hset : trackerSet (sweepTracker xs now ++ [(key, ts)]) key now
          = sweepTracker xs now ++ [(key, now)] := by
        simpa using trackerSet_append_replace (sweepTracker xs now) [] key ts now hxs2
      simp [checkDuplicate, hsw, hget, hnl, hset]
    · have hsw : sweepTracker (xs ++ [(key, ts)]) now = sweepTracker xs now := by
        simp only [sweepTracker, List.filter_append]
        simp
        omega
      have hset : trackerSet (sweepTracker xs now) key now
          = sweepTracker xs now ++ [(key, now)] :=
        trackerSet_absent _ _ _ hxs2
      simp [checkDuplicate, hsw, hxs2, hset]

/-- C4: for every (session, recipient, kind, content) tuple not yet
recorded, the duplicate check at `t0` returns false and records `t0`; a
second check at `t1` within the TTL returns true and leaves the stored
timestamp at `t0`; a third check at `t2`, once the TTL since `t0` has
elapsed, returns false and re-records the tuple at `t2` — whether or not
any of the calls runs the probabilistic sweep. -/
theorem duplicate_check_ttl_behavior
    (m0 : TrackerStore) (s r mtype c : List Char) (t0 t1 t2 : Nat) (w0 w1 w2 : Bool)
    (habs : trackerGet m0 (generateMessageKey s r mtype c) = none)
    (hfresh : t1 - t0 < MESSAGE_TRACKING_TTL)
    (hexp : t0 + MESSAGE_TRACKING_TTL ≤ t2) :
    (isDuplicateMessage m0 s r mtype c t0 w0).1 = false
    ∧ trackerGet (isDuplicateMessage m0 s r mtype c t0 w0).2
        (generateMessageKey s r mtype c) = some t0
    ∧ (isDuplicateMessage (isDuplicateMessage m0 s r mtype c t0 w0).2
        s r mtype c t1 w1).1 = true
    ∧ trackerGet (isDuplicateMessage (isDuplicateMessage m0 s r mtype c t0 w0).2
        s r mtype c t1 w1).2 (generateMessageKey s r mtype c) = some t0
    ∧ (isDuplicateMessage (isDuplicateMessage (isDuplicateMessage m0 s r mtype c t0 w0).2
        s r mtype c t1 w1).2 s r mtype c t2 w2).1 = false
    ∧ trackerGet (isDuplicateMessage (isDuplicateMessage
        (isDuplicateMessage m0 s r mtype c t0 w0).2
        s r mtype c t1 w1).2 s r mtype c t2 w2).2
        (generateMessageKey s r mtype c) = some t2 := by
  obtain ⟨xs0, hxs0, h0⟩ :=
    checkDuplicate_absent m0 (generateMessageKey s r mtype c) t0 w0 habs
  obtain ⟨xs1, hxs1, h1⟩ :=
    checkDuplicate_fresh xs0 (generateMessageKey s r mtype c) t0 t1 w1 hxs0 hfresh
  obtain ⟨xs2, hxs2, h2⟩ :=
    checkDuplicate_expired xs1 (generateMessageKey s r mtype c) t0 t2 w2 hxs1 (by omega)
  have e0 : isDuplicateMessage m0 s r mtype c t0 w0
      = (false, xs0 ++ [(generateMessageKey s r mtype c, t0)]) := h0
  have e1 : isDuplicateMessage (xs0 ++ [(generateMessageKey s r mtype c, t0)])
      s r mtype c t1 w1
      = (true, xs1 ++ [(generateMessageKey s r mtype c, t0)]) := h1
  have e2 : isDuplicateMessage (xs1 ++ [(generateMessageKey s r mtype c, t0)])
      s r mtype c t2 w2
      = (false, xs2 ++ [(generateMessageKey s r mtype c, t2)]) := h2
  have q0 : (isDuplicateMessage m0 s r mtype c t0 w0).1 = false := by rw [e0]
  have p0 : (isDuplicateMessage m0 s r mtype c t0 w0).2
      = xs0 ++ [(generateMessageKey s r mtype c, t0)] := by rw [e0]
  have q1 : (isDuplicateMessage (isDuplicateMessage m0 s r mtype c t0 w0).2
      s r mtype c t1 w1).1 = true := by rw [p0, e1]
  have p1 : (isDuplicateMessage (isDuplicateMessage m0 s r mtype c t0 w0).2
      s r mtype c t1 w1).2 = xs1 ++ [(generateMessageKey s r mtype c, t0)] := by
    rw [p0, e1]
  have q2 : (isDuplicateMessage (isDuplicateMessage (isDuplicateMessage m0 s r mtype c t0 w0).2
      s r mtype c t1 w1).2 s r mtype c t2 w2).1 = false := by rw [p1, e2]
  have p2 : (isDuplicateMessage (isDuplicateMessage (isDuplicateMessage m0 s r mtype c t0 w0).2
      s r mtype c t1 w1).2 s r mtype c t2 w2).2
      = xs2 ++ [(generateMessageKey s r mtype c, t2)] := by rw [p1, e2]
  refine ⟨q0, ?_, q1, ?_, q2, ?_⟩
  · rw [p0]
    exact trackerGet_snoc_self _ _ _ hxs0
  · rw [p1]
    exact trackerGet_snoc_self _ _ _ hxs1
  · rw [p2]
    exact trackerGet_snoc_self _ _ _ hxs2

/-- Witness for C4: empty store, the tuple ("s1", "628", "text", "hi"),
first call at time 0, duplicate call at time 1, expired call exactly at the
TTL, sweeps off, on, off. -/
theorem duplicate_check_ttl_behavior_witness :
    (trackerGet [] (generateMessageKey "s1".data "628".data "text".data "hi".data) = none
      ∧ 1 - 0 < MESSAGE_TRACKING_TTL ∧ 0 + MESSAGE_TRACKING_TTL ≤ 300000)
    ∧ ((isDuplicateMessage [] "s1".data "628".data "text".data "hi".data 0 false).1 = false
      ∧ trackerGet (isDuplicateMessage [] "s1".data "628".data "text".data "hi".data
          0 false).2 (generateMessageKey "s1".data "628".data "text".data "hi".data)
          = some 0
      ∧ (isDuplicateMessage (isDuplicateMessage [] "s1".data "628".data "text".data
          "hi".data 0 false).2 "s1".data "628".data "text".data "hi".data 1 true).1 = true
      ∧ trackerGet (isDuplicateMessage (isDuplicateMessage [] "s1".data "628".data
          "text".data "hi".data 0 false).2 "s1".data "628".data "text".data "hi".data
          1 true).2 (generateMessageKey "s1".data "628".data "text".data "hi".data)
          = some 0
      ∧ (isDuplicateMessage (isDuplicateMessage (isDuplicateMessage [] "s1".data
          "628".data "text".data "hi".data 0 false).2 "s1".data "628".data "text".data
          "hi".data 1 true).2 "s1".data "628".data "text".data "hi".data
          300000 false).1 = false
      ∧ trackerGet (isDuplicateMessage (isDuplicateMessage (isDuplicateMessage []
          "s1".data "628".data "text".data "hi".data 0 false).2 "s1".data "628".data
          "text".data "hi".data 1 true).2 "s1".data "628".data "text".data "hi".data
          300000 false).2
          (generateMessageKey "s1".data "628".data "text".data "hi".data) = some 300000) :=
  ⟨⟨by decide, by decide, by decide⟩,
    duplicate_check_ttl_behavior [] "s1".data "628".data "text".data "hi".data
      0 1 300000 false true false (by decide) (by decide) (by decide)⟩

theorem processRun_all_success (now : Nat) :
    ∀ (l : List QueueMessage) (q : QueueData), q.items = l →
      (processRun now q (List.replicate l.length true)).1 = l := by
  intro l
  induction l with
  | nil =>
    intro q h
    simp [processRun]
  | cons msg rest ih =>
    intro q h
    simp only [List.length_cons, List.replicate_succ]
    simp only [processRun, h]
    simp only [processNextInQueue, h, if_true]
    rw [ih { q with
        items := rest
        stats := { q.stats with success := q.stats.success + 1 }
        lastProcessed := some now } rfl]
    simp [Option.toList]

/-- C5: the processing loop always dispatches the head of the queue (FIFO),
removes it on success, and on failure re-appends it at the tail with a
decremented retry counter when retries remain (never re-inserted at its
original position); consequently a run of all-successful cycles dispatches
the queued items exactly in enqueue order. -/
theorem queue_fifo_dispatch :
    (∀ (q : QueueData) (ok : Bool) (now : Nat) (msg : QueueMessage)
        (rest : List QueueMessage),
      q.items = msg :: rest →
        (processNextInQueue q ok now).2.1 = some msg
        ∧ (ok = true → (processNextInQueue q ok now).1.items = rest)
        ∧ (ok = false →
            (processNextInQueue q ok now).1.items
              = if 0 < msg.retry then rest ++ [{ msg with retry := msg.retry - 1 }]
                else rest))
    ∧ ∀ (now : Nat) (q : QueueData),
        (processRun now q (List.replicate q.items.length true)).1 = q.items := by
  constructor
  · intro q ok now msg rest h
    cases ok <;> simp [processNextInQueue, h]
  · intro now q
    exact processRun_all_success now q.items q rfl

/-- Witness for C5: a two-item queue whose head fails with one retry left is
re-appended at the tail decremented; and the all-success run on the same
queue dispatches both items in order. -/
theorem queue_fifo_dispatch_witness :
    (({ items := [⟨.text, "628", "hi", 1, some 0⟩, ⟨.text, "629", "yo", 0, some 0⟩],
        lastProcessed := none, stats := ⟨2, 0, 0⟩ } : QueueData).items
      = ⟨.text, "628", "hi", 1, some 0⟩ :: [⟨.text, "629", "yo", 0, some 0⟩])
    ∧ ((processNextInQueue
          { items := [⟨.text, "628", "hi", 1, some 0⟩, ⟨.text, "629", "yo", 0, some 0⟩],
            lastProcessed := none, stats := ⟨2, 0, 0⟩ } false 5).2.1
        = some ⟨.text, "628", "hi", 1, some 0⟩
      ∧ (false = true →
          (processNextInQueue
            { items := [⟨.text, "628", "hi", 1, some 0⟩, ⟨.text, "629", "yo", 0, some 0⟩],
              lastProcessed := none, stats := ⟨2, 0, 0⟩ } false 5).1.items
          = [⟨.text, "629", "yo", 0, some 0⟩])
      ∧ (false = false →
          (processNextInQueue
            { items := [⟨.text, "628", "hi", 1, some 0⟩, ⟨.text, "629", "yo", 0, some 0⟩],
              lastProcessed := none, stats := ⟨2, 0, 0⟩ } false 5).1.items
          = if 0 < (⟨.text, "628", "hi", 1, some 0⟩ : QueueMessage).retry
            then [⟨.text, "629", "yo", 0, some 0⟩]
              ++ [{ (⟨.text, "628", "hi", 1, some 0⟩ : QueueMessage) with retry := 1 - 1 }]
            else [⟨.text, "629", "yo", 0, some 0⟩]))
    ∧ (processRun 5
        { items := [⟨.text, "628", "hi", 1, some 0⟩, ⟨.text, "629", "yo", 0, some 0⟩],
          lastProcessed := none, stats := ⟨2, 0, 0⟩ }
        (List.replicate
          ({ items := [⟨.text, "628", "hi", 1, some 0⟩, ⟨.text, "629", "yo", 0, some 0⟩],
             lastProcessed := none, stats := ⟨2, 0, 0⟩ } : QueueData).items.length true)).1
      = [⟨.text, "628", "hi", 1, some 0⟩, ⟨.text, "629", "yo", 0, some 0⟩] :=
  ⟨rfl,
    queue_fifo_dispatch.1
      { items := [⟨.text, "628", "hi", 1, some 0⟩, ⟨.text, "629", "yo", 0, some 0⟩],
        lastProcessed := none, stats := ⟨2, 0, 0⟩ } false 5
      ⟨.text, "628", "hi", 1, some 0⟩ [⟨.text, "629", "yo", 0, some 0⟩] rfl,
    queue_fifo_dispatch.2 5
      { items := [⟨.text, "628", "hi", 1, some 0⟩, ⟨.text, "629", "yo", 0, some 0⟩],
        lastProcessed := none, stats := ⟨2, 0, 0⟩ }⟩

/-- C6 counterexample: with three text items enqueued and a transport in
state `'connecting'`, one processor tick stops the loop (second component
`false`) even though the queue still holds 3 items — so transport-not-ready
is a stop condition, refuting "stop-on-idle triggers only on an empty
queue". The queue and its success/failed stats are indeed untouched. -/
theorem queueProcessor_notReady_stop_counterexample :
    ((processorTick (some ⟨0, none, .connecting⟩)
        (addToQueue (addToQueue (addToQueue initQueue ⟨.text, "1", "a", 0, none⟩ 0).1
          ⟨.text, "2", "b", 0, none⟩ 0).1 ⟨.text, "3", "c", 0, none⟩ 0).1 true 1).2 = false)
    ∧ ((processorTick (some ⟨0, none, .connecting⟩)
        (addToQueue (addToQueue (addToQueue initQueue ⟨.text, "1", "a", 0, none⟩ 0).1
          ⟨.text, "2", "b", 0, none⟩ 0).1 ⟨.text, "3", "c", 0, none⟩ 0).1 true 1).1.items.length
        = 3)
    ∧ ((processorTick (some ⟨0, none, .connecting⟩)
        (addToQueue (addToQueue (addToQueue initQueue ⟨.text, "1", "a", 0, none⟩ 0).1
          ⟨.text, "2", "b", 0, none⟩ 0).1 ⟨.text, "3", "c", 0, none⟩ 0).1 true 1).1.stats.success
        = 0)
    ∧ ((processorTick (some ⟨0, none, .connecting⟩)
        (addToQueue (addToQueue (addToQueue initQueue ⟨.text, "1", "a", 0, none⟩ 0).1
          ⟨.text, "2", "b", 0, none⟩ 0).1 ⟨.text, "3", "c", 0, none⟩ 0).1 true 1).1.stats.failed
        = 0) := by
  decide

/-- C6 amended: when the session's transport is missing or not in state
`'open'`, one processor tick leaves the queue entirely untouched (items and
stats, so three enqueued items stay three with zero success/failed) and
stops the processor — transport-not-ready is itself a stop condition, in
addition to stop-on-empty; the items remain pending until a later enqueue
or explicit restart re-arms the processor. -/
theorem queueProcessor_notReady_idle_amended
    (conn : Option ConnectionInfo) (q : QueueData) (ok : Bool) (now : Nat)
    (h : ∀ c, conn = some c → c.status ≠ .opened) :
    processorTick conn q ok now = (q, false) := by
  cases conn with
  | none => simp [processorTick]
  | some c =>
    have hc := h c rfl
    simp [processorTick, hc]

/-- Witness for the amended C6: the three-item queue with a `'connecting'`
transport is left untouched and the processor stops. -/
theorem queueProcessor_notReady_idle_amended_witness :
    ((∀ c, (some (⟨0, none, .connecting⟩ : ConnectionInfo)) = some c
        → c.status ≠ ConnState.opened)
    ∧ processorTick (some ⟨0, none, .connecting⟩)
        (addToQueue (addToQueue (addToQueue initQueue ⟨.text, "1", "a", 0, none⟩ 0).1
          ⟨.text, "2", "b", 0, none⟩ 0).1 ⟨.text, "3", "c", 0, none⟩ 0).1 true 1
      = ((addToQueue (addToQueue (addToQueue initQueue ⟨.text, "1", "a", 0, none⟩ 0).1
          ⟨.text, "2", "b", 0, none⟩ 0).1 ⟨.text, "3", "c", 0, none⟩ 0).1, false)) :=
  ⟨by intro c hc; cases hc; decide,
    queueProcessor_notReady_idle_amended (some ⟨0, none, .connecting⟩)
      (addToQueue (addToQueue (addToQueue initQueue ⟨.text, "1", "a", 0, none⟩ 0).1
        ⟨.text, "2", "b", 0, none⟩ 0).1 ⟨.text, "3", "c", 0, none⟩ 0).1 true 1
      (by intro c hc; cases hc; decide)⟩

/-- C9: `clearQueue` removes all pending items, returns exactly the count of
items that were queued, and leaves the cumulative stats (total, success,
failed) and the `lastProcessed` timestamp unchanged. -/
theorem clearQueue_frame (q : QueueData) :
    (clearQueue q).2 = q.items.length
    ∧ (clearQueue q).1.items = []
    ∧ (clearQueue q).1.stats = q.stats
    ∧ (clearQueue q).1.lastProcessed = q.lastProcessed := by
  simp [clearQueue]

theorem replaceAllAux_skip (pat v : List Char) :
    ∀ (s : List Char) (n : Nat),
      replaceAllAux pat v n s = replaceAllAux pat v 0 (s.drop n) := by
  intro s
  induction s with
  | nil =>
    intro n
    cases n <;> simp [replaceAllAux]
  | cons c rest ih =>
    intro n
    cases n with
    | zero => simp
    | succ m =>
      simp only [replaceAllAux, List.drop_succ_cons]
      exact ih m

theorem leadsWith_append_self (pat t : List Char) :
    leadsWith pat (pat ++ t) = true := by
  induction pat with
  | nil => simp [leadsWith]
  | cons p ps ih => simp [leadsWith, ih]

theorem replaceAll_frame (pat v : List Char) :
    ∀ s, hasSegment pat s = false → replaceAll pat v s = s := by
  intro s
  induction s with
  | nil =>
    intro h
    simp [replaceAll, replaceAllAux]
  | cons c rest ih =>
    intro h
    simp only [hasSegment, Bool.or_eq_false_iff] at h
    have hrec := ih h.2
    simp only [replaceAll] at hrec
    simp [replaceAll, replaceAllAux, h.1, hrec]

theorem placeholder_ne_nil (key : List Char) : placeholder key ≠ [] := by
  intro hc
  have hlen : (placeholder key).length = 0 := by rw [hc]; rfl
  simp [placeholder] at hlen

theorem replaceAll_leftmost (pat v : List Char) (hne : pat ≠ []) :
    ∀ (a b : List Char),
      (∀ i, i < a.length → leadsWith pat ((a ++ pat ++ b).drop i) = false) →
      replaceAll pat v (a ++ pat ++ b) = a ++ v ++ replaceAll pat v b := by
  intro a
  induction a with
  | nil =>
    intro b _
    obtain ⟨p, ps, rfl⟩ : ∃ p ps, pat = p :: ps := by
      cases pat with
      | nil => exact absurd rfl hne
      | cons p ps => exact ⟨p, ps, rfl⟩
    have hl : leadsWith (p :: ps) (p :: (ps ++ b)) = true := by
      simpa using leadsWith_append_self (p :: ps) b
    simp only [List.nil_append, List.cons_append, replaceAll, replaceAllAux]
    rw [if_pos ⟨by simp, hl⟩]
    rw [replaceAllAux_skip]
    simp [List.drop_left]
  | cons x a2 ih =>
    intro b H
    have h0 : leadsWith pat (x :: (a2 ++ pat ++ b)) = false := by
      simpa using H 0 (by simp)
    have hrec := ih b fun i hi => by
      simpa using H (i + 1) (by simp; omega)
    simp only [replaceAll] at hrec
    simp only [List.cons_append, replaceAll, replaceAllAux]
    rw [if_neg]
    · have hrec2 : replaceAllAux pat v 0 (a2 ++ (pat ++ b))
          = a2 ++ (v ++ replaceAllAux pat v 0 b) := by
        simpa [List.append_assoc] using hrec
      simp [hrec2]
    · rintro ⟨-, hlt⟩
      simp only [List.append_eq] at hlt
      rw [h0] at hlt
      exact Bool.false_ne_true hlt

/-- C8: the personalized substitution of `sendPersonalizedBulkMessage`
replaces occurrences of the bound placeholder with the bound value — the
leftmost occurrence of `\x7b\x7bkey\x7d\x7d` becomes `val` and the
replacement continues on the remainder of the template, so every occurrence
is replaced — and a template with no occurrence of the bound placeholder
(in particular one holding only unbound placeholders such as
`\x7b\x7bcity\x7d\x7d`) is left untouched; concretely, `Hello
\x7b\x7bname\x7d\x7d and \x7b\x7bname\x7d\x7d, \x7b\x7bcity\x7d\x7d` with
`name = Ana` renders to `Hello Ana and Ana, \x7b\x7bcity\x7d\x7d`. -/
theorem personalizeContent_substitution :
    (∀ (a b key val : List Char),
      (∀ i, i < a.length →
        leadsWith (placeholder key) ((a ++ placeholder key ++ b).drop i) = false) →
      personalizeContent (a ++ placeholder key ++ b) [(key, val)]
        = a ++ val ++ replaceAll (placeholder key) val b)
    ∧ (∀ (s key val : List Char),
      hasSegment (placeholder key) s = false →
      personalizeContent s [(key, val)] = s)
    ∧ personalizeContent
        "Hello \x7b\x7bname\x7d\x7d and \x7b\x7bname\x7d\x7d, \x7b\x7bcity\x7d\x7d".data
        [("name".data, "Ana".data)]
      = "Hello Ana and Ana, \x7b\x7bcity\x7d\x7d".data := by
  refine ⟨fun a b key val H => ?_, fun s key val h => ?_, ?_⟩
  · simp only [personalizeContent, List.foldl]
    exact replaceAll_leftmost _ val (placeholder_ne_nil key) a b H
  · simp only [personalizeContent, List.foldl]
    exact replaceAll_frame _ val s h
  · decide

/-- Witness for C8: leftmost replacement on `Hi \x7b\x7bname\x7d\x7d!` and
the untouched unbound placeholder `\x7b\x7bcity\x7d\x7d`. -/
theorem personalizeContent_substitution_witness :
    ((∀ i, i < ("Hi ".data).length →
        leadsWith (placeholder "name".data)
          (("Hi ".data ++ placeholder "name".data ++ "!".data).drop i) = false)
      ∧ personalizeContent ("Hi ".data ++ placeholder "name".data ++ "!".data)
          [("name".data, "Ana".data)]
        = "Hi ".data ++ "Ana".data
            ++ replaceAll (placeholder "name".data) "Ana".data "!".data)
    ∧ (hasSegment (placeholder "name".data) "\x7b\x7bcity\x7d\x7d".data = false
      ∧ personalizeContent "\x7b\x7bcity\x7d\x7d".data [("name".data, "Ana".data)]
        = "\x7b\x7bcity\x7d\x7d".data) :=
  ⟨⟨by decide,
      personalizeContent_substitution.1 "Hi ".data "!".data "name".data "Ana".data
        (by decide)⟩,
    ⟨by decide,
      personalizeContent_substitution.2.1 "\x7b\x7bcity\x7d\x7d".data "name".data
        "Ana".data (by decide)⟩⟩

/-- Witness for C10: a session absent from memory whose directory exists is
reported disconnected and its directory removed. -/
theorem disconnectSession_result_witness :
    ((disconnectSession ⟨[], ["s9"]⟩ "s9").1
        = ((lookupConnection ([] : List (String × ConnectionEntry)) "s9").isSome
            || dirExists ["s9"] "s9"))
    ∧ ((disconnectSession ⟨[], ["s9"]⟩ "s9").2.sessionDirs = removeDir ["s9"] "s9"
        ∧ (disconnectSession ⟨[], ["s9"]⟩ "s9").2.connections = []) :=
  ⟨(disconnectSession_result ⟨[], ["s9"]⟩ "s9").1,
    (disconnectSession_result ⟨[], ["s9"]⟩ "s9").2 (by decide) (by decide)⟩

end WhatsappServer
